import Mathlib

/-!
# Verification of the CRUD+search REST layer (trab-2-andre)

Shallow embedding of the six Express route modules
(`usersRoutes.js`, `teachersRoutes.js`, `studentsRoutes.js`,
`prof-saude.js`, `eventsRoutes.js`, `appointmentsRoutes.js`) together with
the slice of the mongoose/MongoDB layer they use (`findById`,
`findByIdAndUpdate`, `findByIdAndDelete`, `save`, and `find` with a
case-insensitive `$regex` filter or a `$gte`/`$lt` range on a `Date`
field).

Documents of a collection are modelled as an association list of
(identifier, record); each record mirrors its mongoose schema, with every
field optional (a mongoose field without `required: true` may be absent
from a document).  HTTP responses are a status code plus a body.
-/

namespace Trab2

/-! ## The mongoose/MongoDB layer -/

/-- A collection in the store: documents keyed by their `_id` string. -/
abbrev Store (α : Type) : Type := List (String × α)

/-- Point lookup by identifier (first document whose key matches). -/
def storeGet {α : Type} : Store α → String → Option α
  | [], _ => none
  | kv :: t, id => if kv.1 = id then some kv.2 else storeGet t id

/-- Replace the document(s) stored under `id`. -/
def storeSet {α : Type} : Store α → String → α → Store α
  | [], _, _ => []
  | kv :: t, id, r =>
    if kv.1 = id then (id, r) :: storeSet t id r else kv :: storeSet t id r

/-- Remove the document(s) stored under `id`. -/
def storeRemove {α : Type} : Store α → String → Store α
  | [], _ => []
  | kv :: t, id =>
    if kv.1 = id then storeRemove t id else kv :: storeRemove t id

/-- Hexadecimal digit test, for ObjectId strings. -/
def hexDigit (c : Char) : Bool :=
  c.isDigit || ('a' ≤ c && c ≤ 'f') || ('A' ≤ c && c ≤ 'F')

/-- Well-formed MongoDB ObjectId as accepted by the mongoose cast: a
24-character hex string (or any 12-character string, the raw-byte form). -/
def validObjectId (s : String) : Bool :=
  (s.length = 24 && s.data.all hexDigit) || s.length = 12

/-- The `err.message` produced when casting a malformed id (model of the
mongoose `CastError` message). -/
def castMsg : String := "Cast to ObjectId failed"

/-- The `err.message` of a mongoose `CastError` on a `Date` path (thrown
when a query bound is an invalid `Date`). -/
def castDateMsg : String := "Cast to date failed"

/-- `Model.findById(id)`: throws a `CastError` when `id` is not a
well-formed ObjectId, otherwise returns the document or `null`. -/
def mFindById {α : Type} (s : Store α) (id : String) :
    Except String (Option (String × α)) :=
  if validObjectId id then
    .ok ((storeGet s id).map (fun r => (id, r)))
  else
    .error castMsg

/-- `Model.findByIdAndUpdate(id, body, {new: true})`: throws a `CastError`
on a malformed id; returns `null` (store unchanged) when no document has
that id; otherwise applies the update (`$set` of the supplied fields,
here abstracted as `f`) and returns the post-update document. -/
def mFindByIdAndUpdate {α : Type} (s : Store α) (id : String) (f : α → α) :
    Except String (Option (String × α) × Store α) :=
  if validObjectId id then
    match storeGet s id with
    | none => .ok (none, s)
    | some r => .ok (some (id, f r), storeSet s id (f r))
  else
    .error castMsg

/-- `Model.findByIdAndDelete(id)`: throws a `CastError` on a malformed id;
returns `null` (store unchanged) when no document has that id; otherwise
removes the document and returns it. -/
def mFindByIdAndDelete {α : Type} (s : Store α) (id : String) :
    Except String (Option (String × α) × Store α) :=
  if validObjectId id then
    match storeGet s id with
    | none => .ok (none, s)
    | some r => .ok (some (id, r), storeRemove s id)
  else
    .error castMsg

/-! ## `$regex` matching (`$options: 'i'`)

Model of MongoDB's PCRE matching on the subset the statements below
quantify over: `.` matches any character, and a single atom may carry
one quantifier `*` (zero or more), `+` (one or more) or `?` (zero or
one); every non-metacharacter is a literal.  A pattern that starts with
a quantifier has "nothing to repeat" and is invalid in PCRE: the store
rejects it and the route's catch answers 400.  Patterns containing the
remaining PCRE metacharacters (`( ) [ ] { } | \ ^ $`) or stacked
quantifiers (lazy/possessive forms) are outside the modelled subset:
compilation marks them `unsupported`, the handler totalizes them to the
error branch, and no theorem below quantifies over them.  Matching is
unanchored (`$regex` tests whether the pattern occurs anywhere in the
field) and, with `$options: 'i'`, case-insensitive (modelled by
lowercasing pattern and subject). -/

/-- A regex atom: a literal character or the metacharacter `.`. -/
inductive RAtom : Type where
  | lit (c : Char)
  | dot
deriving DecidableEq, Repr

/-- A regex piece: an atom, a starred atom (`*`), or an optional atom
(`?`); `x+` compiles to the two pieces `x` then `x*`. -/
inductive RPiece : Type where
  | once (a : RAtom)
  | many (a : RAtom)
  | opt (a : RAtom)
deriving DecidableEq, Repr

/-- Outcome of compiling a pattern: a piece list, a PCRE-invalid
pattern (store error), or a pattern outside the modelled subset. -/
inductive RCompile : Type where
  | ok (ps : List RPiece)
  | invalid
  | unsupported
deriving DecidableEq, Repr

/-- Interpret one pattern character as an atom. -/
def atomOf (c : Char) : RAtom :=
  if c = '.' then .dot else .lit c

/-- The three quantifier metacharacters. -/
def quantChar (c : Char) : Bool :=
  c = '*' || c = '+' || c = '?'

/-- The PCRE metacharacters whose semantics the model does not
implement. -/
def unsupportedChar (c : Char) : Bool :=
  c = '(' || c = ')' || c = '[' || c = ']' || c = '{' || c = '}' ||
    c = '|' || c = '\\' || c = '^' || c = '$'

/-- Any PCRE metacharacter (outside a character class). -/
def regexMeta (c : Char) : Bool :=
  c = '.' || quantChar c || unsupportedChar c

/-- The pieces of one quantified atom. -/
def quantPieces (q : Char) (a : RAtom) : List RPiece :=
  if q = '*' then [.many a] else if q = '+' then [.once a, .many a]
  else [.opt a]

/-- Prepend pieces to a compilation outcome. -/
def pushPieces (l : List RPiece) : RCompile → RCompile
  | .ok ps => .ok (l ++ ps)
  | .invalid => .invalid
  | .unsupported => .unsupported

/-- Compile a pattern.  A leading quantifier is PCRE's "nothing to
repeat" error; an unimplemented metacharacter or a quantifier directly
following a quantified atom (lazy `*?` / possessive `*+` forms) is
`unsupported`. -/
def regexCompile : List Char → RCompile
  | [] => .ok []
  | [c] =>
    if quantChar c then .invalid
    else if unsupportedChar c then .unsupported
    else .ok [.once (atomOf c)]
  | c :: q :: rest =>
    if quantChar c then .invalid
    else if unsupportedChar c then .unsupported
    else if quantChar q then
      match rest with
      | [] => .ok (quantPieces q (atomOf c))
      | q2 :: _ =>
        if quantChar q2 then .unsupported
        else pushPieces (quantPieces q (atomOf c)) (regexCompile rest)
    else
      pushPieces [.once (atomOf c)] (regexCompile (q :: rest))

/-- Does the atom match one character?  PCRE's `.` (without the `s`
flag) matches any character except a newline. -/
def atomMatch : RAtom → Char → Bool
  | .lit c, d => c = d
  | .dot, d => d ≠ '\n'

/-- Match the pieces against a prefix of `cs`; `fuel` bounds the recursion
(each step lowers `ps.length + cs.length`, so `ps.length + cs.length + 1`
always suffices). -/
def matchHereF : Nat → List RPiece → List Char → Bool
  | 0, _, _ => false
  | _ + 1, [], _ => true
  | _ + 1, .once _ :: _, [] => false
  | f + 1, .once a :: ps, c :: cs => atomMatch a c && matchHereF f ps cs
  | f + 1, .many _ :: ps, [] => matchHereF f ps []
  | f + 1, .many a :: ps, c :: cs =>
      matchHereF f ps (c :: cs) ||
        (atomMatch a c && matchHereF f (.many a :: ps) cs)
  | f + 1, .opt _ :: ps, [] => matchHereF f ps []
  | f + 1, .opt a :: ps, c :: cs =>
      matchHereF f ps (c :: cs) || (atomMatch a c && matchHereF f ps cs)

/-- Match the pieces against a prefix of `cs`, with adequate fuel. -/
def matchHere (ps : List RPiece) (cs : List Char) : Bool :=
  matchHereF (ps.length + cs.length + 1) ps cs

/-- Unanchored match: the pieces match at some position of `cs`. -/
def matchTails (ps : List RPiece) (cs : List Char) : Bool :=
  cs.tails.any (matchHere ps)

/-- Lowercased character list of a string. -/
def lowerStr (s : String) : List Char :=
  s.data.map Char.toLower

/-- The documents whose field is present and matches the compiled
pattern case-insensitively; a document lacking the field never
matches. -/
def regexFilter {α : Type} (field : α → Option String) (ps : List RPiece)
    (s : Store α) : Store α :=
  s.filter (fun kv =>
    match field kv.2 with
    | some v => matchTails ps (lowerStr v)
    | none => false)

/-- `Model.find({field: {$regex: pat, $options: 'i'}})`: `some` matches
when the pattern compiles, `none` when the store rejects the pattern
(the awaited find throws, landing in the route's catch).  Patterns the
model marks `unsupported` are totalized to `none`; no theorem below
quantifies over them. -/
def mFindRegexI {α : Type} (field : α → Option String) (s : Store α)
    (pat : String) : Option (Store α) :=
  match regexCompile (lowerStr pat) with
  | .ok ps => some (regexFilter field ps s)
  | .invalid => none
  | .unsupported => none

/-- The `err.message` of the store error for a rejected regex pattern. -/
def regexErrMsg : String := "Regular expression is invalid"

/-- Is the first list a prefix of the second (boolean)? -/
def prefixList : List Char → List Char → Bool
  | [], _ => true
  | _ :: _, [] => false
  | c :: p, d :: h => c = d && prefixList p h

/-- Literal (non-regex) substring occurrence, for comparison with the
spec's wording "contains the value as a substring". -/
def substrOccurs (pat hay : List Char) : Bool :=
  hay.tails.any (fun t => prefixList pat t)

/-- Is the value free of every regex metacharacter
(`. * + ? ( ) [ ] { } | \ ^ $`)?  Checked on the lowercased characters,
which is where the case-insensitive matcher reads them (lowercasing
fixes every metacharacter). -/
def noMeta (v : String) : Bool :=
  v.data.all (fun c => !regexMeta c.toLower)

/-- `Model.find({date: {$gte: lo, $lt: hi}})`: keep the documents whose
date field is present and inside the half-open range; a document lacking
the field never matches. -/
def mFindDateRange {α : Type} (dateOf : α → Option Int) (lo hi : Int)
    (s : Store α) : Store α :=
  s.filter (fun kv =>
    match dateOf kv.2 with
    | some t => decide (lo ≤ t) && decide (t < hi)
    | none => false)

/-! ## Calendar dates and UTC timestamps

Timestamps are milliseconds since the Unix epoch (the value of a JS
`Date`), as `Int`. -/

/-- Leap-year test (proleptic Gregorian, astronomical year numbering). -/
def isLeapExt (y : Int) : Bool :=
  y % 4 = 0 && (y % 100 ≠ 0 || y % 400 = 0)

/-- Leap-year test on a non-negative year. -/
def isLeap (y : Nat) : Bool :=
  isLeapExt y

/-- Number of days in a month (any integer year). -/
def daysInMonthExt (y : Int) (m : Nat) : Nat :=
  if m = 2 then (if isLeapExt y then 29 else 28)
  else if m = 4 || m = 6 || m = 9 || m = 11 then 30
  else 31

/-- Number of days in a month (non-negative year). -/
def daysInMonth (y m : Nat) : Nat :=
  daysInMonthExt y m

/-- Days from 1970-01-01 to y-m-d for any integer year
(civil-calendar day-number algorithm; `/` and `%` on `Int` are floor
division and non-negative remainder for these positive divisors). -/
def daysFromCivilExt (y : Int) (m d : Nat) : Int :=
  let y' : Int := if m ≤ 2 then y - 1 else y
  let era : Int := y' / 400
  let yoe : Int := y' - era * 400
  let mp : Nat := if m > 2 then m - 3 else m + 9
  let doy : Int := (((153 * mp + 2) / 5 + d - 1 : Nat) : Int)
  era * 146097 + yoe * 365 + yoe / 4 - yoe / 100 + doy - 719468

/-- Days from 1970-01-01 to y-m-d for a non-negative year. -/
def daysFromCivil (y m d : Nat) : Int :=
  daysFromCivilExt y m d

/-- Milliseconds since the epoch of the UTC instant y-m-d hh:mi:ss. -/
def utcMillis (y m d hh mi ss : Nat) : Int :=
  daysFromCivil y m d * 86400000 + ((hh * 3600 + mi * 60 + ss : Nat) : Int) * 1000

/-- Strict `YYYY-MM-DD` parse: ten characters, digits and dashes in
place, month 1–12, day within the month.  This is the set of strings on
which both `moment(s, 'YYYY-MM-DD', true).isValid()` and the ECMAScript
parse of the template string `s + "T00:00:00Z"` succeed. -/
def parseYYYYMMDD (s : String) : Option (Nat × Nat × Nat) :=
  match s.data with
  | [y1, y2, y3, y4, h1, m1, m2, h2, d1, d2] =>
    if y1.isDigit && y2.isDigit && y3.isDigit && y4.isDigit &&
        h1 = '-' && m1.isDigit && m2.isDigit && h2 = '-' &&
        d1.isDigit && d2.isDigit then
      let y := ((y1.toNat - 48) * 1000 + (y2.toNat - 48) * 100 +
        (y3.toNat - 48) * 10 + (y4.toNat - 48))
      let m := (m1.toNat - 48) * 10 + (m2.toNat - 48)
      let d := (d1.toNat - 48) * 10 + (d2.toNat - 48)
      if 1 ≤ m && m ≤ 12 && 1 ≤ d && d ≤ daysInMonth y m then
        some (y, m, d)
      else none
    else none
  | _ => none

/-- Tail of the ECMAScript date-only format after the year: nothing
(month and day default to 1), `-MM`, or `-MM-DD`, with calendar-valid
month and day. -/
def parseESMonthDay (y : Int) : List Char → Option (Int × Nat × Nat)
  | [] => some (y, 1, 1)
  | ['-', m1, m2] =>
    if m1.isDigit && m2.isDigit then
      let m := (m1.toNat - 48) * 10 + (m2.toNat - 48)
      if 1 ≤ m && m ≤ 12 then some (y, m, 1) else none
    else none
  | ['-', m1, m2, '-', d1, d2] =>
    if m1.isDigit && m2.isDigit && d1.isDigit && d2.isDigit then
      let m := (m1.toNat - 48) * 10 + (m2.toNat - 48)
      let d := (d1.toNat - 48) * 10 + (d2.toNat - 48)
      if 1 ≤ m && m ≤ 12 && 1 ≤ d && d ≤ daysInMonthExt y m then
        some (y, m, d)
      else none
    else none
  | _ => none

/-- The date-only part of the ECMAScript Date Time String Format:
`YYYY`, `YYYY-MM`, `YYYY-MM-DD`, or the expanded-year forms
`±YYYYYY[-MM[-DD]]` (six year digits with a mandatory sign; `-000000`
is explicitly invalid).  The strict `YYYY-MM-DD` case is exactly
`parseYYYYMMDD`. -/
def parseESDateOnly (s : String) : Option (Int × Nat × Nat) :=
  match parseYYYYMMDD s with
  | some (y, m, d) => some ((y : Int), m, d)
  | none =>
    match s.data with
    | '+' :: y1 :: y2 :: y3 :: y4 :: y5 :: y6 :: rest =>
      if y1.isDigit && y2.isDigit && y3.isDigit && y4.isDigit &&
          y5.isDigit && y6.isDigit then
        parseESMonthDay (((y1.toNat - 48) * 100000 + (y2.toNat - 48) * 10000 +
          (y3.toNat - 48) * 1000 + (y4.toNat - 48) * 100 +
          (y5.toNat - 48) * 10 + (y6.toNat - 48) : Nat) : Int) rest
      else none
    | '-' :: y1 :: y2 :: y3 :: y4 :: y5 :: y6 :: rest =>
      if y1.isDigit && y2.isDigit && y3.isDigit && y4.isDigit &&
          y5.isDigit && y6.isDigit then
        let yv : Nat := (y1.toNat - 48) * 100000 + (y2.toNat - 48) * 10000 +
          (y3.toNat - 48) * 1000 + (y4.toNat - 48) * 100 +
          (y5.toNat - 48) * 10 + (y6.toNat - 48)
        if yv = 0 then none
        else parseESMonthDay (-(yv : Int)) rest
      else none
    | y1 :: y2 :: y3 :: y4 :: rest =>
      if y1.isDigit && y2.isDigit && y3.isDigit && y4.isDigit then
        parseESMonthDay (((y1.toNat - 48) * 1000 + (y2.toNat - 48) * 100 +
          (y3.toNat - 48) * 10 + (y4.toNat - 48) : Nat) : Int) rest
      else none
    | _ => none

/-- Model of the ECMAScript `new Date(s ++ "T00:00:00Z")` shifted by
`offset` milliseconds (0 for the events search's lower bound, 86399000
for its `T23:59:59Z` upper bound): `some` time value when the date part
conforms to the Date Time String Format and the result lies within the
representable ±8 640 000 000 000 000 ms, `none` (an invalid Date, which
makes the mongoose query throw a cast error) otherwise.  V8's legacy
fallback heuristics for non-conforming strings are not modelled. -/
def jsDateTimeZ (s : String) (offset : Int) : Option Int :=
  match parseESDateOnly s with
  | none => none
  | some (y, m, d) =>
    let t := daysFromCivilExt y m d * 86400000 + offset
    if -8640000000000000 ≤ t ∧ t ≤ 8640000000000000 then some t else none

/-! ## HTTP responses -/

/-- A JSON response body: one document, a list of documents, an error
envelope, or the empty body of a 204. -/
inductive Body (α : Type) : Type where
  | record (doc : String × α)
  | records (docs : List (String × α))
  | error (msg : String)
  | empty
deriving DecidableEq, Repr

/-- An HTTP response: status code and body. -/
structure Resp (α : Type) : Type where
  status : Nat
  body : Body α
deriving DecidableEq, Repr

/-! ## Entity records

One structure per mongoose schema.  No field of the `users`, `teachers`,
`students`, `events` or `appointments` schemas carries `required: true`,
so every field is optional; only `prof-saude.js` marks all five of its
fields required.  The same structures serve as `PUT` request bodies (a
partial payload has `none` for the fields it does not supply). -/

/-- `userSchema` (usersRoutes.js): nome, email, user, pwd, level, status. -/
structure User : Type where
  nome : Option String := none
  email : Option String := none
  user : Option String := none
  pwd : Option String := none
  level : Option String := none
  status : Option String := none
deriving DecidableEq, Repr

/-- `teacherSchema` (teachersRoutes.js). -/
structure Teacher : Type where
  name : Option String := none
  subject : Option String := none
  phone_number : Option String := none
  email : Option String := none
  status : Option String := none
deriving DecidableEq, Repr

/-- `studentSchema` (studentsRoutes.js); `status` has default "on". -/
structure Student : Type where
  name : Option String := none
  age : Option String := none
  parents : Option String := none
  phone_number : Option String := none
  special_needs : Option String := none
  status : Option String := none
deriving DecidableEq, Repr

/-- `profissionalSchema` (prof-saude.js); all five fields `required`. -/
structure Profissional : Type where
  name : Option String := none
  specialty : Option String := none
  contact : Option String := none
  phone_number : Option String := none
  status : Option String := none
deriving DecidableEq, Repr

/-- `eventSchema` (eventsRoutes.js); `date` is a `Date` (epoch millis). -/
structure Event : Type where
  description : Option String := none
  comment : Option String := none
  date : Option Int := none
deriving DecidableEq, Repr

/-- `appointmentSchema` (appointmentsRoutes.js). -/
structure Appointment : Type where
  specialty : Option String := none
  comments : Option String := none
  date : Option Int := none
  student : Option String := none
  professional : Option String := none
deriving DecidableEq, Repr

/-- Overlay of an optional payload field over the stored field (mongoose
`$set` semantics of `findByIdAndUpdate` with a plain-object body). -/
def ov {σ : Type} (p r : Option σ) : Option σ :=
  match p with
  | some v => some v
  | none => r

/-- Merge a partial `User` payload into a stored record. -/
def applyUserPatch (p r : User) : User :=
  ⟨ov p.nome r.nome, ov p.email r.email, ov p.user r.user,
    ov p.pwd r.pwd, ov p.level r.level, ov p.status r.status⟩

/-- Merge a partial `Teacher` payload into a stored record. -/
def applyTeacherPatch (p r : Teacher) : Teacher :=
  ⟨ov p.name r.name, ov p.subject r.subject, ov p.phone_number r.phone_number,
    ov p.email r.email, ov p.status r.status⟩

/-- Merge a partial `Student` payload into a stored record. -/
def applyStudentPatch (p r : Student) : Student :=
  ⟨ov p.name r.name, ov p.age r.age, ov p.parents r.parents,
    ov p.phone_number r.phone_number, ov p.special_needs r.special_needs,
    ov p.status r.status⟩

/-- Merge a partial `Profissional` payload into a stored record. -/
def applyProfissionalPatch (p r : Profissional) : Profissional :=
  ⟨ov p.name r.name, ov p.specialty r.specialty, ov p.contact r.contact,
    ov p.phone_number r.phone_number, ov p.status r.status⟩

/-- Merge a partial `Event` payload into a stored record. -/
def applyEventPatch (p r : Event) : Event :=
  ⟨ov p.description r.description, ov p.comment r.comment, ov p.date r.date⟩

/-- Merge a partial `Appointment` payload into a stored record. -/
def applyAppointmentPatch (p r : Appointment) : Appointment :=
  ⟨ov p.specialty r.specialty, ov p.comments r.comments, ov p.date r.date,
    ov p.student r.student, ov p.professional r.professional⟩

/-- Default application at construction (`new Student(body)`): a missing
`status` gets the schema default "on". -/
def statusOnDefault : String := "on"

/-- Apply the `students` schema defaults to a create payload. -/
def applyStudentDefaults (p : Student) : Student :=
  { p with status := ov p.status (some statusOnDefault) }

/-- Are all `required` fields of the `prof-saude` schema present?
(mongoose validation run by `save()`). -/
def profissionalComplete (p : Profissional) : Bool :=
  p.name.isSome && p.specialty.isSome && p.contact.isSome &&
    p.phone_number.isSome && p.status.isSome

/-- The `err.message` of the mongoose `ValidationError` thrown by
`save()` when a `required` field is missing. -/
def validationMsg : String := "Profissional validation failed"

/-! ## Route handlers

The six route modules are copies of one handler shape per operation
(only the searched field, the validation, and the message strings
differ), so each shape is embedded once and instantiated per kind.
A query parameter is `Option String`; the JS guard `if (!x)` rejects
both an absent parameter and the empty string (the only falsy string). -/

/-- `GET /<kind>/:id`: 400 with the cast error on a malformed id, 404
when no record has the id, otherwise 200 with the record. -/
def getByIdHandler {α : Type} (notFoundMsg : String) (s : Store α)
    (id : String) : Resp α :=
  match mFindById s id with
  | .error e => ⟨400, .error e⟩
  | .ok none => ⟨404, .error notFoundMsg⟩
  | .ok (some doc) => ⟨200, .record doc⟩

/-- `GET /<kind>/search?name=...` (users/teachers/students/prof-saude):
400 when the parameter is absent or empty, otherwise a case-insensitive
`$regex` find on the name field; 400 when the store rejects the value
as a regex pattern (the awaited find throws into the catch), 404 when
it matches nothing, else 200 with the matches. -/
def searchNameHandler {α : Type} (missingMsg notFoundMsg : String)
    (field : α → Option String) (s : Store α) (q : Option String) : Resp α :=
  match q with
  | none => ⟨400, .error missingMsg⟩
  | some v =>
    if v = "" then ⟨400, .error missingMsg⟩
    else
      match mFindRegexI field s v with
      | none => ⟨400, .error regexErrMsg⟩
      | some found =>
        if found.isEmpty then ⟨404, .error notFoundMsg⟩
        else ⟨200, .records found⟩

/-- `POST /<kind>`: construct the document from the body (applying
schema defaults via `defaults`), run `save()` — whose validation
(`validate`) only ever fails for prof-saude — and answer 201 with the
new document or 400 with the validation error. -/
def createHandler {α : Type} (validate : α → Bool) (defaults : α → α)
    (s : Store α) (body : α) (fresh : String) : Resp α × Store α :=
  let doc := defaults body
  if validate doc then
    (⟨201, .record (fresh, doc)⟩, s ++ [(fresh, doc)])
  else
    (⟨400, .error validationMsg⟩, s)

/-- `PUT /<kind>/:id`: `findByIdAndUpdate(id, body, {new: true})`; 400
with the cast error on a malformed id, 404 when the id is absent,
otherwise 200 with the post-update document. -/
def updateHandler {α π : Type} (notFoundMsg : String) (apply : π → α → α)
    (s : Store α) (id : String) (body : π) : Resp α × Store α :=
  match mFindByIdAndUpdate s id (apply body) with
  | .error e => (⟨400, .error e⟩, s)
  | .ok (none, s') => (⟨404, .error notFoundMsg⟩, s')
  | .ok (some doc, s') => (⟨200, .record doc⟩, s')

/-- `DELETE /<kind>/:id`: `findByIdAndDelete(id)`; 400 with the cast
error on a malformed id, 404 when the id is absent, otherwise 204 with
an empty body. -/
def deleteHandler {α : Type} (notFoundMsg : String) (s : Store α)
    (id : String) : Resp α × Store α :=
  match mFindByIdAndDelete s id with
  | .error e => (⟨400, .error e⟩, s)
  | .ok (none, s') => (⟨404, .error notFoundMsg⟩, s')
  | .ok (some _, s') => (⟨204, .empty⟩, s')

/-! ### Date-range searches (events, appointments) -/

/-- Error body of `GET /events/search` for a missing `date`. -/
def eventsMissingMsg : String :=
  "Parâmetro \"date\" é obrigatório no formato YYYY-MM-DD."

/-- Error body of `GET /events/search` when nothing matches. -/
def eventsSearchNotFoundMsg : String := "Nenhum evento encontrado"

/-- `GET /events/search?date=...`: no format validation; the code builds
`new Date(date + "T00:00:00Z")` and `new Date(date + "T23:59:59Z")` and
queries `{$gte: lo, $lt: hi}` — so for an accepted value the searched
range is [00:00:00, 23:59:59) of the day, the last second excluded.
The accepted values are those the ECMAScript `Date` parser takes, i.e.
every ES date-only form (`YYYY`, `YYYY-MM`, `YYYY-MM-DD`,
`±YYYYYY[-MM[-DD]]`), not just `YYYY-MM-DD`; any other string makes the
`Date`s invalid, the query throws a cast error, and the route answers
400. -/
def eventsSearchHandler (s : Store Event) (q : Option String) : Resp Event :=
  match q with
  | none => ⟨400, .error eventsMissingMsg⟩
  | some v =>
    if v = "" then ⟨400, .error eventsMissingMsg⟩
    else
      match jsDateTimeZ v 0, jsDateTimeZ v 86399000 with
      | some lo, some hi =>
        let found := mFindDateRange Event.date lo hi s
        if found.isEmpty then ⟨404, .error eventsSearchNotFoundMsg⟩
        else ⟨200, .records found⟩
      | _, _ => ⟨400, .error castDateMsg⟩

/-- Error body of `GET /appointments/search` for a missing or
non-`YYYY-MM-DD` `date` parameter. -/
def appointmentsMissingMsg : String :=
  "Parâmetro \"date\" é obrigatório no formato YYYY-MM-DD."

/-- Error body of `GET /appointments/search` when nothing matches. -/
def appointmentsSearchNotFoundMsg : String := "Nenhum agendamento encontrado"

/-- `GET /appointments/search?date=...`: rejects with 400 unless the
parameter is present and `moment(date, 'YYYY-MM-DD', true).isValid()`;
then queries `{$gte: moment(date).startOf('day'), $lt:
moment(date).endOf('day')}`.  `startOf`/`endOf` use the server's local
timezone, modelled here as UTC: the range is
[00:00:00.000, 23:59:59.999) of the day, the last millisecond excluded. -/
def appointmentsSearchHandler (s : Store Appointment) (q : Option String) :
    Resp Appointment :=
  match q with
  | none => ⟨400, .error appointmentsMissingMsg⟩
  | some v =>
    if v = "" then ⟨400, .error appointmentsMissingMsg⟩
    else
      match parseYYYYMMDD v with
      | none => ⟨400, .error appointmentsMissingMsg⟩
      | some (y, m, d) =>
        let lo := utcMillis y m d 0 0 0
        let hi := lo + 86399999
        let found := mFindDateRange Appointment.date lo hi s
        if found.isEmpty then ⟨404, .error appointmentsSearchNotFoundMsg⟩
        else ⟨200, .records found⟩

/-! ### Per-kind instantiations -/

/-- 400 body of `GET /users/search` without a `nome` parameter. -/
def usersMissingMsg : String := "Parâmetro \"nome\" é obrigatório."

/-- 404 body of `GET /users/search`. -/
def usersSearchNotFoundMsg : String := "Nenhum usuário encontrado."

/-- 404 body of the id-addressed `users` routes. -/
def usersNotFoundMsg : String := "Usuário não encontrado!"

/-- `GET /users/search`. -/
def usersSearch : Store User → Option String → Resp User :=
  searchNameHandler usersMissingMsg usersSearchNotFoundMsg User.nome

/-- `GET /users/:id`. -/
def usersGetById : Store User → String → Resp User :=
  getByIdHandler usersNotFoundMsg

/-- `POST /users` (no schema validation: no field is `required`). -/
def usersCreate : Store User → User → String → Resp User × Store User :=
  createHandler (fun _ => true) (fun b => b)

/-- `PUT /users/:id`. -/
def usersUpdate : Store User → String → User → Resp User × Store User :=
  updateHandler usersNotFoundMsg applyUserPatch

/-- `DELETE /users/:id`. -/
def usersDelete : Store User → String → Resp User × Store User :=
  deleteHandler usersNotFoundMsg

/-- 400 body of `GET /teachers/search` without a `name` parameter. -/
def teachersMissingMsg : String := "Parâmetro \"name\" é obrigatório."

/-- 404 body of `GET /teachers/search`. -/
def teachersSearchNotFoundMsg : String := "Nenhum professor encontrado."

/-- 404 body of the id-addressed `teachers` routes. -/
def teachersNotFoundMsg : String := "Professor não encontrado!"

/-- `GET /teachers/search`. -/
def teachersSearch : Store Teacher → Option String → Resp Teacher :=
  searchNameHandler teachersMissingMsg teachersSearchNotFoundMsg Teacher.name

/-- `GET /teachers/:id`. -/
def teachersGetById : Store Teacher → String → Resp Teacher :=
  getByIdHandler teachersNotFoundMsg

/-- `POST /teachers` (no schema validation). -/
def teachersCreate : Store Teacher → Teacher → String → Resp Teacher × Store Teacher :=
  createHandler (fun _ => true) (fun b => b)

/-- `PUT /teachers/:id`. -/
def teachersUpdate : Store Teacher → String → Teacher → Resp Teacher × Store Teacher :=
  updateHandler teachersNotFoundMsg applyTeacherPatch

/-- `DELETE /teachers/:id`. -/
def teachersDelete : Store Teacher → String → Resp Teacher × Store Teacher :=
  deleteHandler teachersNotFoundMsg

/-- 400 body of `GET /students/search` without a `name` parameter. -/
def studentsMissingMsg : String := "Parâmetro \"name\" é obrigatório."

/-- 404 body of `GET /students/search`. -/
def studentsSearchNotFoundMsg : String := "Nenhum estudante encontrado."

/-- 404 body of the id-addressed `students` routes. -/
def studentsNotFoundMsg : String := "Estudante não encontrado!"

/-- `GET /students/search`. -/
def studentsSearch : Store Student → Option String → Resp Student :=
  searchNameHandler studentsMissingMsg studentsSearchNotFoundMsg Student.name

/-- `GET /students/:id`. -/
def studentsGetById : Store Student → String → Resp Student :=
  getByIdHandler studentsNotFoundMsg

/-- `POST /students` (no schema validation; `status` defaults to "on"). -/
def studentsCreate : Store Student → Student → String → Resp Student × Store Student :=
  createHandler (fun _ => true) applyStudentDefaults

/-- `PUT /students/:id`. -/
def studentsUpdate : Store Student → String → Student → Resp Student × Store Student :=
  updateHandler studentsNotFoundMsg applyStudentPatch

/-- `DELETE /students/:id`. -/
def studentsDelete : Store Student → String → Resp Student × Store Student :=
  deleteHandler studentsNotFoundMsg

/-- 400 body of `GET /prof-saude/search` without a `name` parameter. -/
def profMissingMsg : String := "Parâmetro \"name\" é obrigatório."

/-- 404 body of `GET /prof-saude/search`. -/
def profSearchNotFoundMsg : String := "Nenhum profissional encontrado"

/-- 404 body of the id-addressed `prof-saude` routes. -/
def profNotFoundMsg : String := "Profissional não encontrado"

/-- `GET /prof-saude/search`. -/
def profSearch : Store Profissional → Option String → Resp Profissional :=
  searchNameHandler profMissingMsg profSearchNotFoundMsg Profissional.name

/-- `GET /prof-saude/:id`. -/
def profGetById : Store Profissional → String → Resp Profissional :=
  getByIdHandler profNotFoundMsg

/-- `POST /prof-saude` (`save()` validates the five `required` fields). -/
def profCreate : Store Profissional → Profissional → String → Resp Profissional × Store Profissional :=
  createHandler profissionalComplete (fun b => b)

/-- `PUT /prof-saude/:id`. -/
def profUpdate : Store Profissional → String → Profissional → Resp Profissional × Store Profissional :=
  updateHandler profNotFoundMsg applyProfissionalPatch

/-- `DELETE /prof-saude/:id`. -/
def profDelete : Store Profissional → String → Resp Profissional × Store Profissional :=
  deleteHandler profNotFoundMsg

/-- 404 body of the id-addressed `events` routes. -/
def eventsNotFoundMsg : String := "Evento não encontrado"

/-- `GET /events/:id`. -/
def eventsGetById : Store Event → String → Resp Event :=
  getByIdHandler eventsNotFoundMsg

/-- `POST /events` (no schema validation). -/
def eventsCreate : Store Event → Event → String → Resp Event × Store Event :=
  createHandler (fun _ => true) (fun b => b)

/-- `PUT /events/:id`. -/
def eventsUpdate : Store Event → String → Event → Resp Event × Store Event :=
  updateHandler eventsNotFoundMsg applyEventPatch

/-- `DELETE /events/:id`. -/
def eventsDelete : Store Event → String → Resp Event × Store Event :=
  deleteHandler eventsNotFoundMsg

/-- 404 body of the id-addressed `appointments` routes. -/
def appointmentsNotFoundMsg : String := "Agendamento não encontrado"

/-- `GET /appointments/:id`. -/
def appointmentsGetById : Store Appointment → String → Resp Appointment :=
  getByIdHandler appointmentsNotFoundMsg

/-- `POST /appointments` (no schema validation). -/
def appointmentsCreate : Store Appointment → Appointment → String → Resp Appointment × Store Appointment :=
  createHandler (fun _ => true) (fun b => b)

/-- `PUT /appointments/:id`. -/
def appointmentsUpdate : Store Appointment → String → Appointment → Resp Appointment × Store Appointment :=
  updateHandler appointmentsNotFoundMsg applyAppointmentPatch

/-- `DELETE /appointments/:id`. -/
def appointmentsDelete : Store Appointment → String → Resp Appointment × Store Appointment :=
  deleteHandler appointmentsNotFoundMsg

/-! ### Concrete fixtures for the closed statements -/

/-- A well-formed ObjectId (24 hex characters). -/
def oidA : String := "aaaaaaaaaaaaaaaaaaaaaaaa"

/-- A second well-formed ObjectId. -/
def oidB : String := "bbbbbbbbbbbbbbbbbbbbbbbb"

/-- A malformed identifier (neither 24 hex characters nor length 12). -/
def badId : String := "notanid"

/-- An arbitrary field value. -/
def sampleStr : String := "x"

/-- A short name containing no regex metacharacter. -/
def nmAB : String := "ab"

/-- The regex metacharacter pattern of the C5 sources. -/
def patDot : String := "."

/-- A value containing a regex quantifier: as a regex, `ab*c` does not
match its own literal spelling. -/
def patStar : String := "ab*c"

/-- The student name of the spec's case-insensitivity example. -/
def nmBingo : String := "Bingo Heeler"

/-- The search value of the spec's case-insensitivity example. -/
def vBingo : String := "bingo"

/-- A search value matching nothing in an empty store. -/
def vNoMatch : String := "zz"

/-- A well-formed date string. -/
def dNov5 : String := "2023-11-05"

/-- The following well-formed date string. -/
def dNov6 : String := "2023-11-06"

/-- A string that does not parse as `YYYY-MM-DD` (wrong separators). -/
def slashDate : String := "2023/11/05"

/-- An ES year-month form that is not `YYYY-MM-DD` but that the events
search accepts (`new Date("2023-11T00:00:00Z")` is valid). -/
def dNovOnly : String := "2023-11"

/-- A string that does not parse as `YYYY-MM-DD` at all. -/
def notADate : String := "not-a-date"

/-- An event at the last second of 2023-11-05 UTC (`2023-11-05T23:59:59Z`). -/
def evLast : Event := { date := some (utcMillis 2023 11 5 23 59 59) }

/-- A complete health-professional payload (all required fields). -/
def profSample : Profissional :=
  { name := some sampleStr, specialty := some sampleStr,
    contact := some sampleStr, phone_number := some sampleStr,
    status := some sampleStr }

/-- A full teacher record. -/
def teacherSample : Teacher :=
  { name := some sampleStr, subject := some sampleStr,
    phone_number := some sampleStr, email := some sampleStr,
    status := some sampleStr }

/-- A partial teacher payload supplying only `status`. -/
def teacherStatusPatch : Teacher := { status := some statusOnDefault }

/-! ## Helper lemmas -/

/-- An invalid-id `findById` answers 400 with the cast error. -/
theorem getByIdHandler_badid {α : Type} (msg : String) (s : Store α)
    (id : String) (h : validObjectId id = false) :
    getByIdHandler msg s id = ⟨400, .error castMsg⟩ := by
  simp [getByIdHandler, mFindById, h]

/-- An invalid-id `findByIdAndUpdate` answers 400 and keeps the store. -/
theorem updateHandler_badid {α π : Type} (msg : String) (apply : π → α → α)
    (s : Store α) (id : String) (body : π) (h : validObjectId id = false) :
    updateHandler msg apply s id body = (⟨400, .error castMsg⟩, s) := by
  simp [updateHandler, mFindByIdAndUpdate, h]

/-- An invalid-id `findByIdAndDelete` answers 400 and keeps the store. -/
theorem deleteHandler_badid {α : Type} (msg : String) (s : Store α)
    (id : String) (h : validObjectId id = false) :
    deleteHandler msg s id = (⟨400, .error castMsg⟩, s) := by
  simp [deleteHandler, mFindByIdAndDelete, h]

/-- After removing `id`, looking up `id` finds nothing. -/
theorem storeGet_remove_self {α : Type} (s : Store α) (id : String) :
    storeGet (storeRemove s id) id = none := by
  induction s with
  | nil => rfl
  | cons kv t ih =>
    by_cases h1 : kv.1 = id
    · simpa [storeRemove, h1] using ih
    · simpa [storeRemove, storeGet, h1] using ih

/-- Removing `id` does not change the lookup of any other key. -/
theorem storeGet_remove_other {α : Type} (s : Store α) (id j : String)
    (h : j ≠ id) : storeGet (storeRemove s id) j = storeGet s j := by
  induction s with
  | nil => rfl
  | cons kv t ih =>
    by_cases h1 : kv.1 = id
    · have h2 : ¬ kv.1 = j := fun hj => h (by rw [← hj, h1])
      simp only [storeRemove, if_pos h1]
      rw [ih]
      simp only [storeGet]
      rw [if_neg h2]
    · simp only [storeRemove, h1, if_neg h1, storeGet]
      by_cases h2 : kv.1 = j
      · rw [if_pos h2, if_pos h2]
      · rw [if_neg h2, if_neg h2]
        exact ih

/-- Removing is idempotent. -/
theorem storeRemove_idem {α : Type} (s : Store α) (id : String) :
    storeRemove (storeRemove s id) id = storeRemove s id := by
  induction s with
  | nil => rfl
  | cons kv t ih =>
    by_cases h1 : kv.1 = id
    · simpa [storeRemove, h1] using ih
    · simp only [storeRemove, if_neg h1]
      rw [ih]

/-- Appending a document under a previously absent key makes it the
lookup result for that key. -/
theorem storeGet_append_fresh {α : Type} (s : Store α) (id : String)
    (r : α) (h : storeGet s id = none) :
    storeGet (s ++ [(id, r)]) id = some r := by
  induction s with
  | nil => simp [storeGet]
  | cons kv t ih =>
    simp only [storeGet] at h
    by_cases h1 : kv.1 = id
    · rw [if_pos h1] at h
      exact absurd h (by simp)
    · rw [if_neg h1] at h
      simp only [List.cons_append, storeGet, if_neg h1]
      exact ih h

/-- Full behavior of a found-then-repeated delete: 204 and removal the
first time, 404 and no further change the second time; other keys keep
their lookup. -/
theorem deleteHandler_spec {α : Type} (msg : String) (s : Store α)
    (id : String) (r : α) (hv : validObjectId id = true)
    (hg : storeGet s id = some r) :
    deleteHandler msg s id = (⟨204, .empty⟩, storeRemove s id) ∧
    storeGet (storeRemove s id) id = none ∧
    (∀ j, j ≠ id → storeGet (storeRemove s id) j = storeGet s j) ∧
    deleteHandler msg (storeRemove s id) id =
      (⟨404, .error msg⟩, storeRemove s id) := by
  refine ⟨?_, storeGet_remove_self s id,
    fun j hj => storeGet_remove_other s id j hj, ?_⟩
  · simp [deleteHandler, mFindByIdAndDelete, hv, hg]
  · simp [deleteHandler, mFindByIdAndDelete, hv, storeGet_remove_self s id]

/-- A found `findByIdAndUpdate` answers 200 with the merged record and
stores it. -/
theorem updateHandler_found {α π : Type} (msg : String) (apply : π → α → α)
    (s : Store α) (id : String) (body : π) (r : α)
    (hv : validObjectId id = true) (hg : storeGet s id = some r) :
    updateHandler msg apply s id body =
      (⟨200, .record (id, apply body r)⟩, storeSet s id (apply body r)) := by
  simp [updateHandler, mFindByIdAndUpdate, hv, hg]

/-- A create under a fresh valid id persists the document, answers 201
with it, and the new document round-trips through `getById`. -/
theorem createHandler_roundtrip {α : Type} (validate : α → Bool)
    (defaults : α → α) (msg : String) (s : Store α) (b : α) (fresh : String)
    (hv : validObjectId fresh = true) (hf : storeGet s fresh = none)
    (hval : validate (defaults b) = true) :
    createHandler validate defaults s b fresh =
      (⟨201, .record (fresh, defaults b)⟩, s ++ [(fresh, defaults b)]) ∧
    getByIdHandler msg (s ++ [(fresh, defaults b)]) fresh =
      ⟨200, .record (fresh, defaults b)⟩ := by
  constructor
  · simp [createHandler, hval]
  · simp [getByIdHandler, mFindById, hv, storeGet_append_fresh s fresh _ hf]

/-- Name search without the parameter: 400. -/
theorem searchNameHandler_none {α : Type} (m nf : String)
    (field : α → Option String) (s : Store α) :
    searchNameHandler m nf field s none = ⟨400, .error m⟩ := rfl

/-- Name search with the empty string: 400. -/
theorem searchNameHandler_empty {α : Type} (m nf : String)
    (field : α → Option String) (s : Store α) :
    searchNameHandler m nf field s (some "") = ⟨400, .error m⟩ := by
  simp [searchNameHandler]

/-- A PCRE-invalid pattern makes the store find fail. -/
theorem mFindRegexI_invalid {α : Type} (field : α → Option String)
    (s : Store α) (pat : String)
    (h : regexCompile (lowerStr pat) = .invalid) :
    mFindRegexI field s pat = none := by
  rw [mFindRegexI, h]

/-- Name search with a present value the store rejects as a regex
pattern: 400 with the store's error. -/
theorem searchNameHandler_invalid {α : Type} (m nf : String)
    (field : α → Option String) (s : Store α) (v : String) (h : v ≠ "")
    (h2 : mFindRegexI field s v = none) :
    searchNameHandler m nf field s (some v) = ⟨400, .error regexErrMsg⟩ := by
  simp [searchNameHandler, h, h2]

/-- Name search with a present, accepted value and no match: 404. -/
theorem searchNameHandler_nomatch {α : Type} (m nf : String)
    (field : α → Option String) (s : Store α) (v : String) (h : v ≠ "")
    (h2 : mFindRegexI field s v = some []) :
    searchNameHandler m nf field s (some v) = ⟨404, .error nf⟩ := by
  simp [searchNameHandler, h, h2]

/-- Name search with a present, accepted value and at least one match:
200 with exactly the matches. -/
theorem searchNameHandler_match {α : Type} (m nf : String)
    (field : α → Option String) (s : Store α) (v : String)
    (l : Store α) (h : v ≠ "") (h2 : mFindRegexI field s v = some l)
    (h3 : l ≠ []) :
    searchNameHandler m nf field s (some v) = ⟨200, .records l⟩ := by
  cases l with
  | nil => exact absurd rfl h3
  | cons a t => simp [searchNameHandler, h, h2]

/-- A document is kept by the compiled-pattern filter when its field
matches. -/
theorem mem_regexFilter {α : Type} (field : α → Option String)
    (ps : List RPiece) (s : Store α) (i : String) (r : α) (nm : String)
    (hmem : (i, r) ∈ s) (hname : field r = some nm)
    (htest : matchTails ps (lowerStr nm) = true) :
    (i, r) ∈ regexFilter field ps s := by
  rw [regexFilter, List.mem_filter]
  exact ⟨hmem, by simp [hname, htest]⟩

/-- A noMeta value's lowercased characters are metacharacter-free. -/
theorem lowerStr_noMeta (v : String) (h : noMeta v = true) :
    ∀ c ∈ lowerStr v, regexMeta c = false := by
  intro c hc
  obtain ⟨c0, hc0, rfl⟩ := List.mem_map.mp hc
  have := (List.all_eq_true.mp h) c0 hc0
  simpa using this

/-- Unpack metacharacter-freedom of one character. -/
theorem regexMeta_false {c : Char} (hc : regexMeta c = false) :
    (¬ c = '.') ∧ quantChar c = false ∧ unsupportedChar c = false := by
  unfold regexMeta at hc
  simp only [Bool.or_eq_false_iff] at hc
  refine ⟨?_, hc.1.2, hc.2⟩
  simpa using hc.1.1

/-- A metacharacter-free pattern compiles to a sequence of literal
atoms. -/
theorem regexCompile_noMeta : ∀ (p : List Char),
    (∀ c ∈ p, regexMeta c = false) →
    regexCompile p = .ok (p.map (fun c => RPiece.once (RAtom.lit c))) := by
  intro p
  induction p with
  | nil => intro _; rfl
  | cons c t ih =>
    intro h
    obtain ⟨hdot, hq, hu⟩ := regexMeta_false (h c (by simp))
    have hrest : ∀ x ∈ t, regexMeta x = false :=
      fun x hx => h x (List.mem_cons_of_mem c hx)
    cases t with
    | nil =>
      simp [regexCompile, hq, hu, atomOf, hdot]
    | cons q rest =>
      obtain ⟨_, hqq, _⟩ := regexMeta_false (hrest q (by simp))
      simp only [regexCompile, hq, hu, hqq, Bool.false_eq_true,
        if_false, List.map_cons]
      rw [ih hrest]
      simp [pushPieces, atomOf, hdot]

/-- With adequate fuel, a sequence of literal atoms matches its own
spelling at the head of the subject. -/
theorem matchHereF_lits : ∀ (p : List Char) (t : List Char) (f : Nat),
    p.length + (p.length + t.length) < f →
    matchHereF f (p.map (fun c => RPiece.once (RAtom.lit c))) (p ++ t) = true := by
  intro p
  induction p with
  | nil =>
    intro t f hf
    cases f with
    | zero => omega
    | succ f' => simp [matchHereF]
  | cons c p' ih =>
    intro t f hf
    cases f with
    | zero => omega
    | succ f' =>
      simp only [List.map_cons, List.cons_append, matchHereF, List.append_eq]
      rw [ih t f' (by simp at hf ⊢; omega)]
      simp [atomMatch]

/-- A boolean prefix yields an append decomposition. -/
theorem prefixList_append : ∀ (p t : List Char),
    prefixList p t = true → ∃ rest, t = p ++ rest := by
  intro p
  induction p with
  | nil => exact fun t _ => ⟨t, rfl⟩
  | cons c p' ih =>
    intro t h
    cases t with
    | nil => simp [prefixList] at h
    | cons d t' =>
      simp only [prefixList, Bool.and_eq_true] at h
      obtain ⟨rest, rfl⟩ := ih t' h.2
      exact ⟨rest, by simp [show c = d from by simpa using h.1]⟩

/-- A sequence of literal atoms matches unanchored wherever its
spelling occurs in the subject. -/
theorem matchTails_lits_of_substr (p hay : List Char)
    (hsub : substrOccurs p hay = true) :
    matchTails (p.map (fun c => RPiece.once (RAtom.lit c))) hay = true := by
  obtain ⟨t, ht, hpre⟩ := List.any_eq_true.mp hsub
  obtain ⟨rest, rfl⟩ := prefixList_append _ _ hpre
  rw [matchTails, List.any_eq_true]
  refine ⟨p ++ rest, ht, ?_⟩
  rw [matchHere]
  apply matchHereF_lits
  simp

/-- The events search's upper bound `T23:59:59Z` sits 86 399 000 ms
(one second short of a full day) above the day's start. -/
theorem utcMillis_2359 (y m d : Nat) :
    utcMillis y m d 23 59 59 = utcMillis y m d 0 0 0 + 86399000 := by
  unfold utcMillis
  push_cast
  ring

/-- Midnight's time value is the day number times a day of
milliseconds. -/
theorem utcMillis_zero (y m d : Nat) :
    utcMillis y m d 0 0 0 = daysFromCivil y m d * 86400000 := by
  unfold utcMillis
  norm_num

/-- A string that parses as `YYYY-MM-DD` is not empty. -/
theorem parseYYYYMMDD_ne_empty (v : String) (y m d : Nat)
    (hp : parseYYYYMMDD v = some (y, m, d)) : v ≠ "" := by
  intro h
  rw [h] at hp
  have hnone : parseYYYYMMDD "" = none := by decide
  rw [hnone] at hp
  cases hp

/-- A decimal digit's code point lies in [48, 57]. -/
theorem isDigit_toNat {c : Char} (h : c.isDigit = true) :
    48 ≤ c.toNat ∧ c.toNat ≤ 57 := by
  simp [Char.isDigit] at h
  exact ⟨h.1, h.2⟩

/-- No month has more than 31 days. -/
theorem daysInMonthExt_le_31 (y : Int) (m : Nat) : daysInMonthExt y m ≤ 31 := by
  unfold daysInMonthExt
  split
  · split <;> omega
  · split <;> omega

/-- Day-number bounds for four-digit years. -/
theorem daysFromCivilExt_bounds (y : Int) (m d : Nat)
    (hy0 : 0 ≤ y) (hy : y ≤ 9999) (hm1 : 1 ≤ m) (hm : m ≤ 12)
    (hd1 : 1 ≤ d) (hd : d ≤ 31) :
    -719529 ≤ daysFromCivilExt y m d ∧ daysFromCivilExt y m d ≤ 3700000 := by
  unfold daysFromCivilExt
  split <;> split <;> push_cast <;> omega

/-- The components of a strict `YYYY-MM-DD` parse are bounded. -/
theorem parseYYYYMMDD_bounds (v : String) (y m d : Nat)
    (hp : parseYYYYMMDD v = some (y, m, d)) :
    y ≤ 9999 ∧ 1 ≤ m ∧ m ≤ 12 ∧ 1 ≤ d ∧ d ≤ 31 := by
  unfold parseYYYYMMDD at hp
  split at hp
  · rename_i y1 y2 y3 y4 c1 m1 m2 c2 d1 d2 hdata
    dsimp only at hp
    split at hp
    · split at hp
      · rename_i hdig hrange
        simp only [Bool.and_eq_true, decide_eq_true_eq] at hdig hrange
        simp only [Option.some.injEq, Prod.mk.injEq] at hp
        obtain ⟨hy, hm, hd⟩ := hp
        subst hy
        subst hm
        subst hd
        obtain ⟨⟨⟨⟨⟨⟨⟨⟨⟨hy1, hy2⟩, hy3⟩, hy4⟩, _⟩, hm1d⟩, hm2d⟩, _⟩,
          hd1d⟩, hd2d⟩ := hdig
        have b1 := isDigit_toNat hy1
        have b2 := isDigit_toNat hy2
        have b3 := isDigit_toNat hy3
        have b4 := isDigit_toNat hy4
        obtain ⟨⟨⟨hm1r, hm2r⟩, hd1r⟩, hd2r⟩ := hrange
        have hle := daysInMonthExt_le_31 ((y1.toNat - 48) * 1000 +
          (y2.toNat - 48) * 100 + (y3.toNat - 48) * 10 + (y4.toNat - 48) : Nat)
          ((m1.toNat - 48) * 10 + (m2.toNat - 48))
        refine ⟨by omega, hm1r, hm2r, hd1r, ?_⟩
        calc (d1.toNat - 48) * 10 + (d2.toNat - 48)
            ≤ daysInMonth ((y1.toNat - 48) * 1000 + (y2.toNat - 48) * 100 +
              (y3.toNat - 48) * 10 + (y4.toNat - 48))
              ((m1.toNat - 48) * 10 + (m2.toNat - 48)) := hd2r
          _ ≤ 31 := hle
      · cases hp
    · cases hp
  · cases hp

/-- For a strict `YYYY-MM-DD` value the ES `Date` of the template
string is valid and equals the day's time value plus the offset. -/
theorem jsDateTimeZ_strict (v : String) (y m d : Nat) (off : Int)
    (hp : parseYYYYMMDD v = some (y, m, d)) (h0 : 0 ≤ off)
    (h1 : off ≤ 86399000) :
    jsDateTimeZ v off = some (daysFromCivil y m d * 86400000 + off) := by
  obtain ⟨hy, hm1, hm, hd1, hd⟩ := parseYYYYMMDD_bounds v y m d hp
  have hb := daysFromCivilExt_bounds y m d (by positivity)
    (by exact_mod_cast hy) hm1 hm hd1 hd
  have hes : parseESDateOnly v = some ((y : Int), m, d) := by
    unfold parseESDateOnly
    rw [hp]
  unfold jsDateTimeZ
  rw [hes]
  simp only
  rw [if_pos (by constructor <;> omega)]
  rfl

/-- Events search with a present value one of whose query bounds is an
invalid `Date`: the query throws and the route answers 400. -/
theorem eventsSearch_invalid (s : Store Event) (v : String) (hne : v ≠ "")
    (h : jsDateTimeZ v 0 = none ∨ jsDateTimeZ v 86399000 = none) :
    eventsSearchHandler s (some v) = ⟨400, .error castDateMsg⟩ := by
  rcases h with h | h
  · simp [eventsSearchHandler, hne, h]
  · cases h2 : jsDateTimeZ v 0 <;>
      simp [eventsSearchHandler, hne, h, h2]

/-- Events search with a present value whose two `Date` query bounds
are both valid: 404 when the range holds no event, otherwise 200 with
exactly those events. -/
theorem eventsSearch_bounds (s : Store Event) (v : String) (lo hi : Int)
    (hne : v ≠ "") (h0 : jsDateTimeZ v 0 = some lo)
    (h1 : jsDateTimeZ v 86399000 = some hi) :
    (mFindDateRange Event.date lo hi s = [] →
      eventsSearchHandler s (some v) = ⟨404, .error eventsSearchNotFoundMsg⟩) ∧
    (mFindDateRange Event.date lo hi s ≠ [] →
      eventsSearchHandler s (some v) =
        ⟨200, .records (mFindDateRange Event.date lo hi s)⟩) := by
  constructor
  · intro h
    simp [eventsSearchHandler, hne, h0, h1, h]
  · intro h
    cases hc : mFindDateRange Event.date lo hi s with
    | nil => exact absurd hc h
    | cons a l => simp [eventsSearchHandler, hne, h0, h1, hc]

/-- Events search on a well-formed (strict) date: 404 when the
half-open range [00:00:00, 23:59:59) of the day holds no event,
otherwise 200 with exactly those events. -/
theorem eventsSearch_valid (s : Store Event) (v : String) (y m d : Nat)
    (hp : parseYYYYMMDD v = some (y, m, d)) :
    (mFindDateRange Event.date (utcMillis y m d 0 0 0)
        (utcMillis y m d 23 59 59) s = [] →
      eventsSearchHandler s (some v) = ⟨404, .error eventsSearchNotFoundMsg⟩) ∧
    (mFindDateRange Event.date (utcMillis y m d 0 0 0)
        (utcMillis y m d 23 59 59) s ≠ [] →
      eventsSearchHandler s (some v) =
        ⟨200, .records (mFindDateRange Event.date (utcMillis y m d 0 0 0)
          (utcMillis y m d 23 59 59) s)⟩) := by
  have hne := parseYYYYMMDD_ne_empty v y m d hp
  have h0 : jsDateTimeZ v 0 = some (utcMillis y m d 0 0 0) := by
    rw [jsDateTimeZ_strict v y m d 0 hp (by omega) (by omega),
      utcMillis_zero]
    norm_num
  have h1 : jsDateTimeZ v 86399000 = some (utcMillis y m d 23 59 59) := by
    rw [jsDateTimeZ_strict v y m d 86399000 hp (by omega) (by omega),
      utcMillis_2359, utcMillis_zero]
  constructor
  · intro h
    simp [eventsSearchHandler, hne, h0, h1, h]
  · intro h
    cases hc : mFindDateRange Event.date (utcMillis y m d 0 0 0)
        (utcMillis y m d 23 59 59) s with
    | nil => exact absurd hc h
    | cons a l => simp [eventsSearchHandler, hne, h0, h1, hc]

/-- Appointments search on a well-formed date: 404 when the half-open
range [00:00:00.000, 23:59:59.999) of the day holds no appointment,
otherwise 200 with exactly those appointments. -/
theorem appointmentsSearch_valid (s : Store Appointment) (v : String)
    (y m d : Nat) (hp : parseYYYYMMDD v = some (y, m, d)) :
    (mFindDateRange Appointment.date (utcMillis y m d 0 0 0)
        (utcMillis y m d 0 0 0 + 86399999) s = [] →
      appointmentsSearchHandler s (some v) =
        ⟨404, .error appointmentsSearchNotFoundMsg⟩) ∧
    (mFindDateRange Appointment.date (utcMillis y m d 0 0 0)
        (utcMillis y m d 0 0 0 + 86399999) s ≠ [] →
      appointmentsSearchHandler s (some v) =
        ⟨200, .records (mFindDateRange Appointment.date
          (utcMillis y m d 0 0 0) (utcMillis y m d 0 0 0 + 86399999) s)⟩) := by
  have hne := parseYYYYMMDD_ne_empty v y m d hp
  constructor
  · intro h
    simp [appointmentsSearchHandler, hne, hp, h]
  · intro h
    cases hc : mFindDateRange Appointment.date (utcMillis y m d 0 0 0)
        (utcMillis y m d 0 0 0 + 86399999) s with
    | nil => exact absurd hc h
    | cons a l => simp [appointmentsSearchHandler, hne, hp, hc]

/-- Membership in a date-range find is membership in the store with a
present date inside the half-open range. -/
theorem mem_mFindDateRange {α : Type} (dateOf : α → Option Int)
    (lo hi : Int) (s : Store α) (i : String) (r : α) :
    (i, r) ∈ mFindDateRange dateOf lo hi s ↔
      (i, r) ∈ s ∧ ∃ t, dateOf r = some t ∧ lo ≤ t ∧ t < hi := by
  rw [mFindDateRange, List.mem_filter]
  constructor
  · rintro ⟨h1, h2⟩
    refine ⟨h1, ?_⟩
    cases hd : dateOf r with
    | none => rw [hd] at h2; simp at h2
    | some t =>
      rw [hd] at h2
      simp only [Bool.and_eq_true, decide_eq_true_eq] at h2
      exact ⟨t, rfl, h2.1, h2.2⟩
  · rintro ⟨h1, t, hd, hlo, hhi⟩
    exact ⟨h1, by simp [hd, hlo, hhi]⟩

/-! ## Claims -/

/-- C7: for every entity kind, `getById`, `update` and `delete` with a
malformed identifier (one the ObjectId cast rejects) answer 400 with a
JSON error body, and the store is unchanged. -/
theorem malformed_id_yields_400_store_unchanged
    (su : Store User) (st : Store Teacher) (ss : Store Student)
    (sp : Store Profissional) (se : Store Event) (sa : Store Appointment)
    (id : String) (pu : User) (pt : Teacher) (pss : Student)
    (pp : Profissional) (pe : Event) (pa : Appointment)
    (h : validObjectId id = false) :
    usersGetById su id = ⟨400, .error castMsg⟩ ∧
    usersUpdate su id pu = (⟨400, .error castMsg⟩, su) ∧
    usersDelete su id = (⟨400, .error castMsg⟩, su) ∧
    teachersGetById st id = ⟨400, .error castMsg⟩ ∧
    teachersUpdate st id pt = (⟨400, .error castMsg⟩, st) ∧
    teachersDelete st id = (⟨400, .error castMsg⟩, st) ∧
    studentsGetById ss id = ⟨400, .error castMsg⟩ ∧
    studentsUpdate ss id pss = (⟨400, .error castMsg⟩, ss) ∧
    studentsDelete ss id = (⟨400, .error castMsg⟩, ss) ∧
    profGetById sp id = ⟨400, .error castMsg⟩ ∧
    profUpdate sp id pp = (⟨400, .error castMsg⟩, sp) ∧
    profDelete sp id = (⟨400, .error castMsg⟩, sp) ∧
    eventsGetById se id = ⟨400, .error castMsg⟩ ∧
    eventsUpdate se id pe = (⟨400, .error castMsg⟩, se) ∧
    eventsDelete se id = (⟨400, .error castMsg⟩, se) ∧
    appointmentsGetById sa id = ⟨400, .error castMsg⟩ ∧
    appointmentsUpdate sa id pa = (⟨400, .error castMsg⟩, sa) ∧
    appointmentsDelete sa id = (⟨400, .error castMsg⟩, sa) :=
  ⟨getByIdHandler_badid _ su id h,
    updateHandler_badid _ _ su id pu h, deleteHandler_badid _ su id h,
    getByIdHandler_badid _ st id h,
    updateHandler_badid _ _ st id pt h, deleteHandler_badid _ st id h,
    getByIdHandler_badid _ ss id h,
    updateHandler_badid _ _ ss id pss h, deleteHandler_badid _ ss id h,
    getByIdHandler_badid _ sp id h,
    updateHandler_badid _ _ sp id pp h, deleteHandler_badid _ sp id h,
    getByIdHandler_badid _ se id h,
    updateHandler_badid _ _ se id pe h, deleteHandler_badid _ se id h,
    getByIdHandler_badid _ sa id h,
    updateHandler_badid _ _ sa id pa h, deleteHandler_badid _ sa id h⟩

/-- C7 witness: the malformed id "notanid" on the users routes. -/
theorem malformed_id_yields_400_store_unchanged_witness :
    validObjectId badId = false ∧
    usersGetById [] badId = ⟨400, .error castMsg⟩ :=
  ⟨by decide,
    (malformed_id_yields_400_store_unchanged [] [] [] [] [] [] badId
      {} {} {} {} {} {} (by decide)).1⟩

/-- C8: for every entity kind, deleting an existing identifier answers
204 with an empty body and removes exactly that record (no other key's
lookup changes); a second delete of the same identifier answers 404 and
leaves the store as after the first delete. -/
theorem delete_removes_then_404_idempotent
    (su : Store User) (st : Store Teacher) (ss : Store Student)
    (sp : Store Profissional) (se : Store Event) (sa : Store Appointment)
    (id : String) (ru : User) (rt : Teacher) (rs : Student)
    (rp : Profissional) (re : Event) (ra : Appointment)
    (hv : validObjectId id = true)
    (hu : storeGet su id = some ru) (ht : storeGet st id = some rt)
    (hs : storeGet ss id = some rs) (hp : storeGet sp id = some rp)
    (he : storeGet se id = some re) (ha : storeGet sa id = some ra) :
    (usersDelete su id = (⟨204, .empty⟩, storeRemove su id) ∧
      storeGet (storeRemove su id) id = none ∧
      (∀ j, j ≠ id → storeGet (storeRemove su id) j = storeGet su j) ∧
      usersDelete (storeRemove su id) id =
        (⟨404, .error usersNotFoundMsg⟩, storeRemove su id)) ∧
    (teachersDelete st id = (⟨204, .empty⟩, storeRemove st id) ∧
      storeGet (storeRemove st id) id = none ∧
      (∀ j, j ≠ id → storeGet (storeRemove st id) j = storeGet st j) ∧
      teachersDelete (storeRemove st id) id =
        (⟨404, .error teachersNotFoundMsg⟩, storeRemove st id)) ∧
    (studentsDelete ss id = (⟨204, .empty⟩, storeRemove ss id) ∧
      storeGet (storeRemove ss id) id = none ∧
      (∀ j, j ≠ id → storeGet (storeRemove ss id) j = storeGet ss j) ∧
      studentsDelete (storeRemove ss id) id =
        (⟨404, .error studentsNotFoundMsg⟩, storeRemove ss id)) ∧
    (profDelete sp id = (⟨204, .empty⟩, storeRemove sp id) ∧
      storeGet (storeRemove sp id) id = none ∧
      (∀ j, j ≠ id → storeGet (storeRemove sp id) j = storeGet sp j) ∧
      profDelete (storeRemove sp id) id =
        (⟨404, .error profNotFoundMsg⟩, storeRemove sp id)) ∧
    (eventsDelete se id = (⟨204, .empty⟩, storeRemove se id) ∧
      storeGet (storeRemove se id) id = none ∧
      (∀ j, j ≠ id → storeGet (storeRemove se id) j = storeGet se j) ∧
      eventsDelete (storeRemove se id) id =
        (⟨404, .error eventsNotFoundMsg⟩, storeRemove se id)) ∧
    (appointmentsDelete sa id = (⟨204, .empty⟩, storeRemove sa id) ∧
      storeGet (storeRemove sa id) id = none ∧
      (∀ j, j ≠ id → storeGet (storeRemove sa id) j = storeGet sa j) ∧
      appointmentsDelete (storeRemove sa id) id =
        (⟨404, .error appointmentsNotFoundMsg⟩, storeRemove sa id)) :=
  ⟨deleteHandler_spec usersNotFoundMsg su id ru hv hu,
    deleteHandler_spec teachersNotFoundMsg st id rt hv ht,
    deleteHandler_spec studentsNotFoundMsg ss id rs hv hs,
    deleteHandler_spec profNotFoundMsg sp id rp hv hp,
    deleteHandler_spec eventsNotFoundMsg se id re hv he,
    deleteHandler_spec appointmentsNotFoundMsg sa id ra hv ha⟩

/-- C8 witness: one concrete user record deleted twice. -/
theorem delete_removes_then_404_idempotent_witness :
    usersDelete [(oidA, ({} : User))] oidA =
      (⟨204, .empty⟩, storeRemove [(oidA, ({} : User))] oidA) ∧
    storeGet (storeRemove [(oidA, ({} : User))] oidA) oidA = none ∧
    (∀ j, j ≠ oidA →
      storeGet (storeRemove [(oidA, ({} : User))] oidA) j =
        storeGet [(oidA, ({} : User))] j) ∧
    usersDelete (storeRemove [(oidA, ({} : User))] oidA) oidA =
      (⟨404, .error usersNotFoundMsg⟩, storeRemove [(oidA, ({} : User))] oidA) :=
  (delete_removes_then_404_idempotent
    [(oidA, {})] [(oidA, {})] [(oidA, {})] [(oidA, {})] [(oidA, {})] [(oidA, {})]
    oidA {} {} {} {} {} {} (by decide)
    (by decide) (by decide) (by decide) (by decide) (by decide) (by decide)).1

/-- C9: for every entity kind, a valid create answers 201 with the new
record under its fresh identifier, persists exactly that record, and a
`getById` of the fresh identifier returns the identical record (for
students, with the `status` default applied; for prof-saude, provided
the required fields are present). -/
theorem create_roundtrips_getById
    (su : Store User) (st : Store Teacher) (ss : Store Student)
    (sp : Store Profissional) (se : Store Event) (sa : Store Appointment)
    (bu : User) (bt : Teacher) (bs : Student) (bp : Profissional)
    (be : Event) (ba : Appointment) (fresh : String)
    (hv : validObjectId fresh = true)
    (hfu : storeGet su fresh = none) (hft : storeGet st fresh = none)
    (hfs : storeGet ss fresh = none) (hfp : storeGet sp fresh = none)
    (hfe : storeGet se fresh = none) (hfa : storeGet sa fresh = none)
    (hbp : profissionalComplete bp = true) :
    (usersCreate su bu fresh =
        (⟨201, .record (fresh, bu)⟩, su ++ [(fresh, bu)]) ∧
      usersGetById (su ++ [(fresh, bu)]) fresh = ⟨200, .record (fresh, bu)⟩) ∧
    (teachersCreate st bt fresh =
        (⟨201, .record (fresh, bt)⟩, st ++ [(fresh, bt)]) ∧
      teachersGetById (st ++ [(fresh, bt)]) fresh = ⟨200, .record (fresh, bt)⟩) ∧
    (studentsCreate ss bs fresh =
        (⟨201, .record (fresh, applyStudentDefaults bs)⟩,
          ss ++ [(fresh, applyStudentDefaults bs)]) ∧
      studentsGetById (ss ++ [(fresh, applyStudentDefaults bs)]) fresh =
        ⟨200, .record (fresh, applyStudentDefaults bs)⟩) ∧
    (profCreate sp bp fresh =
        (⟨201, .record (fresh, bp)⟩, sp ++ [(fresh, bp)]) ∧
      profGetById (sp ++ [(fresh, bp)]) fresh = ⟨200, .record (fresh, bp)⟩) ∧
    (eventsCreate se be fresh =
        (⟨201, .record (fresh, be)⟩, se ++ [(fresh, be)]) ∧
      eventsGetById (se ++ [(fresh, be)]) fresh = ⟨200, .record (fresh, be)⟩) ∧
    (appointmentsCreate sa ba fresh =
        (⟨201, .record (fresh, ba)⟩, sa ++ [(fresh, ba)]) ∧
      appointmentsGetById (sa ++ [(fresh, ba)]) fresh =
        ⟨200, .record (fresh, ba)⟩) :=
  ⟨createHandler_roundtrip _ _ usersNotFoundMsg su bu fresh hv hfu rfl,
    createHandler_roundtrip _ _ teachersNotFoundMsg st bt fresh hv hft rfl,
    createHandler_roundtrip _ _ studentsNotFoundMsg ss bs fresh hv hfs rfl,
    createHandler_roundtrip _ _ profNotFoundMsg sp bp fresh hv hfp hbp,
    createHandler_roundtrip _ _ eventsNotFoundMsg se be fresh hv hfe rfl,
    createHandler_roundtrip _ _ appointmentsNotFoundMsg sa ba fresh hv hfa rfl⟩

/-- C9 witness: one concrete user create round-trips. -/
theorem create_roundtrips_getById_witness :
    usersCreate [] {} oidA =
      (⟨201, .record (oidA, ({} : User))⟩, [] ++ [(oidA, ({} : User))]) ∧
    usersGetById ([] ++ [(oidA, ({} : User))]) oidA =
      ⟨200, .record (oidA, ({} : User))⟩ :=
  (create_roundtrips_getById [] [] [] [] [] [] {} {} {} profSample {} {}
    oidA (by decide) rfl rfl rfl rfl rfl rfl (by decide)).1

/-- C6: updating an existing record with a partial payload answers 200
with the merged record and stores it; every field the payload does not
supply keeps its prior value and every supplied field takes the
payload's value (shown for the cited users routes and for the spec's
Teacher example). -/
theorem update_partial_payload_merges
    (su : Store User) (st : Store Teacher) (id : String)
    (ru : User) (rt : Teacher) (pu : User) (pt : Teacher)
    (hv : validObjectId id = true)
    (hgu : storeGet su id = some ru) (hgt : storeGet st id = some rt) :
    (usersUpdate su id pu =
        (⟨200, .record (id, applyUserPatch pu ru)⟩,
          storeSet su id (applyUserPatch pu ru)) ∧
      (pu.nome = none → (applyUserPatch pu ru).nome = ru.nome) ∧
      (∀ w, pu.nome = some w → (applyUserPatch pu ru).nome = some w) ∧
      (pu.email = none → (applyUserPatch pu ru).email = ru.email) ∧
      (∀ w, pu.email = some w → (applyUserPatch pu ru).email = some w) ∧
      (pu.user = none → (applyUserPatch pu ru).user = ru.user) ∧
      (∀ w, pu.user = some w → (applyUserPatch pu ru).user = some w) ∧
      (pu.pwd = none → (applyUserPatch pu ru).pwd = ru.pwd) ∧
      (∀ w, pu.pwd = some w → (applyUserPatch pu ru).pwd = some w) ∧
      (pu.level = none → (applyUserPatch pu ru).level = ru.level) ∧
      (∀ w, pu.level = some w → (applyUserPatch pu ru).level = some w) ∧
      (pu.status = none → (applyUserPatch pu ru).status = ru.status) ∧
      (∀ w, pu.status = some w → (applyUserPatch pu ru).status = some w)) ∧
    (teachersUpdate st id pt =
        (⟨200, .record (id, applyTeacherPatch pt rt)⟩,
          storeSet st id (applyTeacherPatch pt rt)) ∧
      (pt.name = none → (applyTeacherPatch pt rt).name = rt.name) ∧
      (∀ w, pt.name = some w → (applyTeacherPatch pt rt).name = some w) ∧
      (pt.subject = none → (applyTeacherPatch pt rt).subject = rt.subject) ∧
      (∀ w, pt.subject = some w → (applyTeacherPatch pt rt).subject = some w) ∧
      (pt.phone_number = none →
        (applyTeacherPatch pt rt).phone_number = rt.phone_number) ∧
      (∀ w, pt.phone_number = some w →
        (applyTeacherPatch pt rt).phone_number = some w) ∧
      (pt.email = none → (applyTeacherPatch pt rt).email = rt.email) ∧
      (∀ w, pt.email = some w → (applyTeacherPatch pt rt).email = some w) ∧
      (pt.status = none → (applyTeacherPatch pt rt).status = rt.status) ∧
      (∀ w, pt.status = some w → (applyTeacherPatch pt rt).status = some w)) := by
  refine ⟨⟨updateHandler_found _ _ su id pu ru hv hgu, ?_, ?_, ?_, ?_, ?_, ?_,
      ?_, ?_, ?_, ?_, ?_, ?_⟩,
    ⟨updateHandler_found _ _ st id pt rt hv hgt, ?_, ?_, ?_, ?_, ?_, ?_,
      ?_, ?_, ?_, ?_⟩⟩
  all_goals
    first
    | exact fun w (h : _ = some w) => by simp [applyUserPatch, ov, h]
    | exact fun w (h : _ = some w) => by simp [applyTeacherPatch, ov, h]
    | exact fun h => by simp [applyUserPatch, ov, h]
    | exact fun h => by simp [applyTeacherPatch, ov, h]

/-- C6 witness: updating only `status` on a stored Teacher leaves
`subject` unchanged and answers 200 with the merged record. -/
theorem update_partial_payload_merges_witness :
    teachersUpdate [(oidA, teacherSample)] oidA teacherStatusPatch =
      (⟨200, .record (oidA, applyTeacherPatch teacherStatusPatch teacherSample)⟩,
        storeSet [(oidA, teacherSample)] oidA
          (applyTeacherPatch teacherStatusPatch teacherSample)) ∧
    (applyTeacherPatch teacherStatusPatch teacherSample).subject =
      teacherSample.subject :=
  ⟨(update_partial_payload_merges [(oidA, {})] [(oidA, teacherSample)] oidA
      {} teacherSample {} teacherStatusPatch (by decide) (by decide)
      (by decide)).2.1,
    (update_partial_payload_merges [(oidA, {})] [(oidA, teacherSample)] oidA
      {} teacherSample {} teacherStatusPatch (by decide) (by decide)
      (by decide)).2.2.2.2.1 rfl⟩

/-- C3 counterexample: the present value "2023-11" does not parse as
`YYYY-MM-DD`, yet the events search accepts it (the ES `Date` of
`"2023-11T00:00:00Z"` is valid) and answers 404 on an empty store,
where the claim requires 400 `InvalidInput`. -/
theorem events_search_accepts_es_date_cex :
    parseYYYYMMDD dNovOnly = none ∧
    eventsSearchHandler ([] : Store Event) (some dNovOnly) =
      ⟨404, .error eventsSearchNotFoundMsg⟩ := by decide

/-- C3 amended: appointments reject every present non-`YYYY-MM-DD`
value with 400 (strict moment validation); events answer 400 exactly
when one of the two `Date` query bounds built from the value is invalid
— which holds for values like "not-a-date" or "2023/11/05" but not for
ES date-only forms such as "2023-11", which are accepted and
searched. -/
theorem search_invalid_date_returns_400
    (se : Store Event) (sa : Store Appointment) (v : String)
    (hne : v ≠ "") (hp : parseYYYYMMDD v = none) :
    appointmentsSearchHandler sa (some v) =
      ⟨400, .error appointmentsMissingMsg⟩ ∧
    (jsDateTimeZ v 0 = none ∨ jsDateTimeZ v 86399000 = none →
      eventsSearchHandler se (some v) = ⟨400, .error castDateMsg⟩) := by
  constructor
  · simp [appointmentsSearchHandler, hne, hp]
  · exact fun h => eventsSearch_invalid se v hne h

/-- C3 witness: the value "2023/11/05" answers 400 on both kinds. -/
theorem search_invalid_date_returns_400_witness :
    appointmentsSearchHandler [] (some slashDate) =
      ⟨400, .error appointmentsMissingMsg⟩ ∧
    eventsSearchHandler [] (some slashDate) = ⟨400, .error castDateMsg⟩ :=
  ⟨(search_invalid_date_returns_400 [] [] slashDate (by decide)
      (by decide)).1,
    (search_invalid_date_returns_400 [] [] slashDate (by decide)
      (by decide)).2 (.inl (by decide))⟩

/-- C4 counterexample: on the events kind the value "not-a-date" is
present and non-empty and matches zero records of the empty store, yet
the handler answers 400 (the claim requires 404 there, and requires 400
only for an absent/empty value). -/
theorem search_400_on_present_invalid_date_cex :
    eventsSearchHandler ([] : Store Event) (some notADate) =
      ⟨400, .error castDateMsg⟩ ∧
    notADate ≠ "" := by decide

/-- C4 amended: statuses of `searchByField` — 400 exactly for an
absent/empty value, a value the store rejects as an invalid regex
pattern (name kinds), or a value that fails date acceptance (events:
an invalid `Date` query bound; appointments: strict `YYYY-MM-DD`
validation); 404 exactly for an accepted value matching zero records;
otherwise 200 with the non-empty match list. -/
theorem search_status_characterization
    (su : Store User) (st : Store Teacher) (ss : Store Student)
    (sp : Store Profissional) (se : Store Event) (sa : Store Appointment)
    (w : String) :
    (usersSearch su none = ⟨400, .error usersMissingMsg⟩) ∧
    (usersSearch su (some "") = ⟨400, .error usersMissingMsg⟩) ∧
    (w ≠ "" → regexCompile (lowerStr w) = .invalid →
      usersSearch su (some w) = ⟨400, .error regexErrMsg⟩) ∧
    (w ≠ "" → mFindRegexI User.nome su w = some [] →
      usersSearch su (some w) = ⟨404, .error usersSearchNotFoundMsg⟩) ∧
    (w ≠ "" → ∀ l, mFindRegexI User.nome su w = some l → l ≠ [] →
      usersSearch su (some w) = ⟨200, .records l⟩) ∧
    (teachersSearch st none = ⟨400, .error teachersMissingMsg⟩) ∧
    (teachersSearch st (some "") = ⟨400, .error teachersMissingMsg⟩) ∧
    (w ≠ "" → regexCompile (lowerStr w) = .invalid →
      teachersSearch st (some w) = ⟨400, .error regexErrMsg⟩) ∧
    (w ≠ "" → mFindRegexI Teacher.name st w = some [] →
      teachersSearch st (some w) = ⟨404, .error teachersSearchNotFoundMsg⟩) ∧
    (w ≠ "" → ∀ l, mFindRegexI Teacher.name st w = some l → l ≠ [] →
      teachersSearch st (some w) = ⟨200, .records l⟩) ∧
    (studentsSearch ss none = ⟨400, .error studentsMissingMsg⟩) ∧
    (studentsSearch ss (some "") = ⟨400, .error studentsMissingMsg⟩) ∧
    (w ≠ "" → regexCompile (lowerStr w) = .invalid →
      studentsSearch ss (some w) = ⟨400, .error regexErrMsg⟩) ∧
    (w ≠ "" → mFindRegexI Student.name ss w = some [] →
      studentsSearch ss (some w) = ⟨404, .error studentsSearchNotFoundMsg⟩) ∧
    (w ≠ "" → ∀ l, mFindRegexI Student.name ss w = some l → l ≠ [] →
      studentsSearch ss (some w) = ⟨200, .records l⟩) ∧
    (profSearch sp none = ⟨400, .error profMissingMsg⟩) ∧
    (profSearch sp (some "") = ⟨400, .error profMissingMsg⟩) ∧
    (w ≠ "" → regexCompile (lowerStr w) = .invalid →
      profSearch sp (some w) = ⟨400, .error regexErrMsg⟩) ∧
    (w ≠ "" → mFindRegexI Profissional.name sp w = some [] →
      profSearch sp (some w) = ⟨404, .error profSearchNotFoundMsg⟩) ∧
    (w ≠ "" → ∀ l, mFindRegexI Profissional.name sp w = some l → l ≠ [] →
      profSearch sp (some w) = ⟨200, .records l⟩) ∧
    (eventsSearchHandler se none = ⟨400, .error eventsMissingMsg⟩) ∧
    (eventsSearchHandler se (some "") = ⟨400, .error eventsMissingMsg⟩) ∧
    (w ≠ "" → jsDateTimeZ w 0 = none ∨ jsDateTimeZ w 86399000 = none →
      eventsSearchHandler se (some w) = ⟨400, .error castDateMsg⟩) ∧
    (w ≠ "" → ∀ lo hi, jsDateTimeZ w 0 = some lo →
      jsDateTimeZ w 86399000 = some hi →
      (mFindDateRange Event.date lo hi se = [] →
        eventsSearchHandler se (some w) =
          ⟨404, .error eventsSearchNotFoundMsg⟩) ∧
      (mFindDateRange Event.date lo hi se ≠ [] →
        eventsSearchHandler se (some w) =
          ⟨200, .records (mFindDateRange Event.date lo hi se)⟩)) ∧
    (appointmentsSearchHandler sa none =
      ⟨400, .error appointmentsMissingMsg⟩) ∧
    (appointmentsSearchHandler sa (some "") =
      ⟨400, .error appointmentsMissingMsg⟩) ∧
    (w ≠ "" → parseYYYYMMDD w = none →
      appointmentsSearchHandler sa (some w) =
        ⟨400, .error appointmentsMissingMsg⟩) ∧
    (∀ y m d, parseYYYYMMDD w = some (y, m, d) →
      mFindDateRange Appointment.date (utcMillis y m d 0 0 0)
        (utcMillis y m d 0 0 0 + 86399999) sa = [] →
      appointmentsSearchHandler sa (some w) =
        ⟨404, .error appointmentsSearchNotFoundMsg⟩) ∧
    (∀ y m d, parseYYYYMMDD w = some (y, m, d) →
      mFindDateRange Appointment.date (utcMillis y m d 0 0 0)
        (utcMillis y m d 0 0 0 + 86399999) sa ≠ [] →
      appointmentsSearchHandler sa (some w) =
        ⟨200, .records (mFindDateRange Appointment.date
          (utcMillis y m d 0 0 0) (utcMillis y m d 0 0 0 + 86399999) sa)⟩) := by
  refine ⟨rfl, searchNameHandler_empty _ _ _ su,
    fun h1 h2 => searchNameHandler_invalid _ _ _ su w h1
      (mFindRegexI_invalid _ su w h2),
    fun h1 h2 => searchNameHandler_nomatch _ _ _ su w h1 h2,
    fun h1 l h2 h3 => searchNameHandler_match _ _ _ su w l h1 h2 h3,
    rfl, searchNameHandler_empty _ _ _ st,
    fun h1 h2 => searchNameHandler_invalid _ _ _ st w h1
      (mFindRegexI_invalid _ st w h2),
    fun h1 h2 => searchNameHandler_nomatch _ _ _ st w h1 h2,
    fun h1 l h2 h3 => searchNameHandler_match _ _ _ st w l h1 h2 h3,
    rfl, searchNameHandler_empty _ _ _ ss,
    fun h1 h2 => searchNameHandler_invalid _ _ _ ss w h1
      (mFindRegexI_invalid _ ss w h2),
    fun h1 h2 => searchNameHandler_nomatch _ _ _ ss w h1 h2,
    fun h1 l h2 h3 => searchNameHandler_match _ _ _ ss w l h1 h2 h3,
    rfl, searchNameHandler_empty _ _ _ sp,
    fun h1 h2 => searchNameHandler_invalid _ _ _ sp w h1
      (mFindRegexI_invalid _ sp w h2),
    fun h1 h2 => searchNameHandler_nomatch _ _ _ sp w h1 h2,
    fun h1 l h2 h3 => searchNameHandler_match _ _ _ sp w l h1 h2 h3,
    rfl, ?_,
    fun h1 h2 => eventsSearch_invalid se w h1 h2,
    fun h1 lo hi h2 h3 => eventsSearch_bounds se w lo hi h1 h2 h3,
    rfl, ?_, ?_,
    fun y m d hp h => (appointmentsSearch_valid sa w y m d hp).1 h,
    fun y m d hp h => (appointmentsSearch_valid sa w y m d hp).2 h⟩
  · simp [eventsSearchHandler]
  · simp [appointmentsSearchHandler]
  · intro h1 h2
    simp [appointmentsSearchHandler, h1, h2]

/-- C4 witness: a present value matching zero users answers 404. -/
theorem search_status_characterization_witness :
    usersSearch [] (some vNoMatch) = ⟨404, .error usersSearchNotFoundMsg⟩ :=
  (search_status_characterization [] [] [] [] [] [] vNoMatch).2.2.2.1
    (by decide) (by decide)

/-- C5: on all four name-searchable kinds the search value reaches the
store as an unescaped regex pattern: the value "." (which no stored name
contains as a literal substring) matches the record named "ab" and the
search returns it with 200. -/
theorem name_search_regex_not_literal :
    usersSearch [(oidA, { nome := some nmAB })] (some patDot) =
      ⟨200, .records [(oidA, { nome := some nmAB })]⟩ ∧
    teachersSearch [(oidA, { name := some nmAB })] (some patDot) =
      ⟨200, .records [(oidA, { name := some nmAB })]⟩ ∧
    studentsSearch [(oidA, { name := some nmAB })] (some patDot) =
      ⟨200, .records [(oidA, { name := some nmAB })]⟩ ∧
    profSearch [(oidA, { name := some nmAB })] (some patDot) =
      ⟨200, .records [(oidA, { name := some nmAB })]⟩ ∧
    substrOccurs patDot.data nmAB.data = false := by decide

/-- C10 counterexample: the student named "ab*c" contains the search
value "ab*c" as a literal substring, but as a regex `ab*c` does not
match its own spelling, so the search answers 404 instead of returning
the record. -/
theorem students_search_metachar_value_cex :
    studentsSearch [(oidA, { name := some patStar })] (some patStar) =
      ⟨404, .error studentsSearchNotFoundMsg⟩ ∧
    substrOccurs (lowerStr patStar) (lowerStr patStar) = true := by decide

/-- C10 amended: for every search value free of regex metacharacters,
substring search is case-insensitive — every stored student whose name
contains the value up to letter case is returned (with 200). -/
theorem students_search_ci_substring_nometa
    (s : Store Student) (v : String) (i : String) (r : Student)
    (nm : String) (hmeta : noMeta v = true) (hne : v ≠ "")
    (hmem : (i, r) ∈ s) (hname : r.name = some nm)
    (hsub : substrOccurs (lowerStr v) (lowerStr nm) = true) :
    ∃ l, studentsSearch s (some v) = ⟨200, .records l⟩ ∧ (i, r) ∈ l := by
  have hok : regexCompile (lowerStr v) =
      .ok ((lowerStr v).map (fun c => RPiece.once (RAtom.lit c))) :=
    regexCompile_noMeta _ (lowerStr_noMeta v hmeta)
  have hmt := matchTails_lits_of_substr (lowerStr v) (lowerStr nm) hsub
  have hfind : mFindRegexI Student.name s v =
      some (regexFilter Student.name
        ((lowerStr v).map (fun c => RPiece.once (RAtom.lit c))) s) := by
    rw [mFindRegexI, hok]
  have hmemf := mem_regexFilter Student.name
    ((lowerStr v).map (fun c => RPiece.once (RAtom.lit c))) s i r nm
    hmem hname hmt
  exact ⟨regexFilter Student.name
      ((lowerStr v).map (fun c => RPiece.once (RAtom.lit c))) s,
    searchNameHandler_match _ _ _ s v _ hne hfind
      (List.ne_nil_of_mem hmemf), hmemf⟩

/-- C10 witness: the spec's example — the student "Bingo Heeler" is
returned by the search value "bingo". -/
theorem students_search_ci_substring_nometa_witness :
    ∃ l, studentsSearch [(oidA, { name := some nmBingo })] (some vBingo) =
      ⟨200, .records l⟩ ∧ (oidA, ({ name := some nmBingo } : Student)) ∈ l :=
  students_search_ci_substring_nometa [(oidA, { name := some nmBingo })]
    vBingo oidA { name := some nmBingo } nmBingo (by decide) (by decide)
    (by decide) rfl (by decide)

/-- C1 counterexample: the event at `2023-11-05T23:59:59Z` is returned
by neither `date=2023-11-05` (the claim says it is) nor
`date=2023-11-06` — both searches answer 404. -/
theorem events_search_excludes_last_second_cex :
    eventsSearchHandler [(oidA, evLast)] (some dNov5) =
      ⟨404, .error eventsSearchNotFoundMsg⟩ ∧
    eventsSearchHandler [(oidA, evLast)] (some dNov6) =
      ⟨404, .error eventsSearchNotFoundMsg⟩ ∧
    evLast.date = some (utcMillis 2023 11 5 23 59 59) := by decide

/-- C1 amended: for a well-formed `YYYY-MM-DD` value the events search
returns exactly the events whose date lies in [00:00:00, 23:59:59) UTC
of that day (the last second of the day excluded), and the appointments
search exactly those in [00:00:00.000, 23:59:59.999) of the server-local
(here UTC) day — 404 when the range is empty, 200 with the matches
otherwise; neither matches the full inclusive UTC day. -/
theorem date_search_range_characterization
    (se : Store Event) (sa : Store Appointment) (v : String) (y m d : Nat)
    (hp : parseYYYYMMDD v = some (y, m, d)) :
    (∃ l, ((l = [] ∧ eventsSearchHandler se (some v) =
            ⟨404, .error eventsSearchNotFoundMsg⟩) ∨
          (l ≠ [] ∧ eventsSearchHandler se (some v) = ⟨200, .records l⟩)) ∧
      ∀ i e, (i, e) ∈ l ↔ (i, e) ∈ se ∧ ∃ t, Event.date e = some t ∧
        utcMillis y m d 0 0 0 ≤ t ∧ t < utcMillis y m d 0 0 0 + 86399000) ∧
    (∃ l, ((l = [] ∧ appointmentsSearchHandler sa (some v) =
            ⟨404, .error appointmentsSearchNotFoundMsg⟩) ∨
          (l ≠ [] ∧ appointmentsSearchHandler sa (some v) =
            ⟨200, .records l⟩)) ∧
      ∀ i a, (i, a) ∈ l ↔ (i, a) ∈ sa ∧ ∃ t, Appointment.date a = some t ∧
        utcMillis y m d 0 0 0 ≤ t ∧ t < utcMillis y m d 0 0 0 + 86399999) := by
  constructor
  · refine ⟨mFindDateRange Event.date (utcMillis y m d 0 0 0)
      (utcMillis y m d 23 59 59) se, ?_, ?_⟩
    · by_cases hc : mFindDateRange Event.date (utcMillis y m d 0 0 0)
        (utcMillis y m d 23 59 59) se = []
      · exact .inl ⟨hc, (eventsSearch_valid se v y m d hp).1 hc⟩
      · exact .inr ⟨hc, (eventsSearch_valid se v y m d hp).2 hc⟩
    · intro i e
      rw [mem_mFindDateRange, utcMillis_2359]
  · refine ⟨mFindDateRange Appointment.date (utcMillis y m d 0 0 0)
      (utcMillis y m d 0 0 0 + 86399999) sa, ?_, ?_⟩
    · by_cases hc : mFindDateRange Appointment.date (utcMillis y m d 0 0 0)
        (utcMillis y m d 0 0 0 + 86399999) sa = []
      · exact .inl ⟨hc, (appointmentsSearch_valid sa v y m d hp).1 hc⟩
      · exact .inr ⟨hc, (appointmentsSearch_valid sa v y m d hp).2 hc⟩
    · intro i a
      rw [mem_mFindDateRange]

/-- C1 witness: the characterization applied to empty stores and the
date 2023-11-05. -/
theorem date_search_range_characterization_witness :
    (∃ l, ((l = [] ∧ eventsSearchHandler [] (some dNov5) =
            ⟨404, .error eventsSearchNotFoundMsg⟩) ∨
          (l ≠ [] ∧ eventsSearchHandler [] (some dNov5) =
            ⟨200, .records l⟩)) ∧
      ∀ i e, (i, e) ∈ l ↔ (i, e) ∈ ([] : Store Event) ∧
        ∃ t, Event.date e = some t ∧
          utcMillis 2023 11 5 0 0 0 ≤ t ∧
          t < utcMillis 2023 11 5 0 0 0 + 86399000) ∧
    (∃ l, ((l = [] ∧ appointmentsSearchHandler [] (some dNov5) =
            ⟨404, .error appointmentsSearchNotFoundMsg⟩) ∨
          (l ≠ [] ∧ appointmentsSearchHandler [] (some dNov5) =
            ⟨200, .records l⟩)) ∧
      ∀ i a, (i, a) ∈ l ↔ (i, a) ∈ ([] : Store Appointment) ∧
        ∃ t, Appointment.date a = some t ∧
          utcMillis 2023 11 5 0 0 0 ≤ t ∧
          t < utcMillis 2023 11 5 0 0 0 + 86399999) :=
  date_search_range_characterization [] [] dNov5 2023 11 5 (by decide)

/-- C2: the claim (create without a required field answers 400 and
persists nothing) is contradicted by the code: the users and events
schemas declare no `required` fields, so a create whose payload lacks
every field — in particular a User with no email and an Event with no
date — answers 201 and persists the record; only the prof-saude schema
enforces its required fields (400, nothing persisted). -/
theorem create_missing_required_persists_201 :
    usersCreate [] {} oidA =
      (⟨201, .record (oidA, ({} : User))⟩, [(oidA, ({} : User))]) ∧
    ({} : User).email = none ∧
    eventsCreate [] {} oidA =
      (⟨201, .record (oidA, ({} : Event))⟩, [(oidA, ({} : Event))]) ∧
    ({} : Event).date = none ∧
    profCreate [] {} oidA = (⟨400, .error validationMsg⟩, []) := by decide

end Trab2
